import Mathlib

/-!
Shallow embedding of the res_scene custom component
(custom_components/res_scene/scene_manager.py and options_flow.py).

Python dicts are modelled as association lists (`List (String × _)`) whose
insert operation updates in place when the key exists and appends otherwise,
matching CPython dict assignment semantics.  Attribute values are modelled by
the inductive `Value`; Python `None` is `Value.null` (dropped by the non-null
attribute filter, as in `apply_state`).  Fire-and-forget service invocations
are recorded as `Command` values; the surrounding event loop, device
behaviour and state-change notifications are supplied as explicit oracle
functions (`hass`, `probe`, `fail`, notification lists), so every definition
is executable.
-/

namespace ResScene

/-- Attribute values appearing in snapshots and service payloads.
`floatLit s` stands for the Python float parsed from the literal `s`. -/
inductive Value where
  | null
  | str (s : String)
  | num (n : Int)
  | list (l : List Int)
  | bool (b : Bool)
  | floatLit (s : String)
deriving DecidableEq, Repr

/-- Python dict with string keys, as an ordered association list. -/
abbrev AList (α : Type) : Type := List (String × α)

/-- Dict lookup: first binding of the key (dicts hold at most one). -/
def alistLookup {α : Type} : AList α → String → Option α
  | [], _ => none
  | (k', v) :: t, k => if k' = k then some v else alistLookup t k

/-- Dict assignment `d[k] = v`: update in place, else append. -/
def alistInsert {α : Type} : AList α → String → α → AList α
  | [], k, v => [(k, v)]
  | (k', v') :: t, k, v =>
    if k' = k then (k', v) :: t else (k', v') :: alistInsert t k v

/-- Dict `pop(k, default)` restricted to its removal effect. -/
def alistErase {α : Type} : AList α → String → AList α
  | [], _ => []
  | (k', v) :: t, k => if k' = k then t else (k', v) :: alistErase t k

/-- Python `{**a, **b}` / `a.update(b)`: fold the right dict into the left. -/
def alistMerge {α : Type} (a b : AList α) : AList α :=
  b.foldl (fun m p => alistInsert m p.1 p.2) a

/-- `eid.split(".")[0]`: the characters before the first dot. -/
def domainOf (eid : String) : String :=
  String.mk (eid.toList.takeWhile (fun c => c ≠ '.'))

/-- Domains rejected by both `save_scene` and `apply_state`. -/
def nonRestorableDomains : List String :=
  ["sensor", "binary_sensor", "device_tracker", "camera", "vacuum",
   "scene", "script"]

/-- Target-entity usability check of `apply_state`: the entity exists and its
live state is neither `unavailable` nor `unknown`. -/
def targetUsable : Option String → Bool
  | none => false
  | some s => !(s == "unavailable" || s == "unknown")

/-- `COLOR_MODE_ATTRS` (sets written in source order). -/
def colorModeAttrs : AList (List String) :=
  [("onoff", []),
   ("brightness", ["brightness", "brightness_pct"]),
   ("hs", ["hs_color", "brightness", "brightness_pct"]),
   ("rgb", ["rgb_color", "brightness", "brightness_pct"]),
   ("rgbw", ["rgbw_color", "brightness", "brightness_pct"]),
   ("rgbww", ["rgbww_color", "brightness", "brightness_pct"]),
   ("xy", ["xy_color", "brightness", "brightness_pct"]),
   ("color_temp",
    ["color_temp", "color_temp_kelvin", "brightness", "brightness_pct"])]

/-- `ATTR_ATTRS`. -/
def attrAttrs : AList (List String) :=
  [("profile", ["brightness", "brightness_pct"]),
   ("white", ["brightness", "brightness_pct"])]

/-- `COMMON_LIGHT_ATTRS`. -/
def commonLightAttrs : List String :=
  ["effect", "flash", "white", "profile"]

/-- Merged runtime options dict; `none` fields model absent keys. -/
structure OptDict where
  restore_light_attributes : Option Bool := none
  action_timeout : Option Nat := none
deriving DecidableEq, Repr

/-- `a.update(b)` on option dicts: keys present in `b` win. -/
def optUpdate (a b : OptDict) : OptDict :=
  ⟨match b.restore_light_attributes with
    | some x => some x
    | none => a.restore_light_attributes,
   match b.action_timeout with
    | some x => some x
    | none => a.action_timeout⟩

/-- `options.get("restore_light_attributes")` truthiness. -/
def optRLA (o : OptDict) : Bool :=
  o.restore_light_attributes.getD false

/-- One saved entity snapshot, `{"state": ..., "attributes": {...}}`. -/
structure Snapshot where
  state : Option String := none
  attributes : AList Value := []
deriving DecidableEq, Repr

/-- A value of the stored per-scene map: an entity snapshot, or the options
dict stored under the reserved `_options` key. -/
inductive Entry where
  | esnap (s : Snapshot)
  | eopts (o : OptDict)
deriving DecidableEq, Repr

/-- `entry.get("state")`. -/
def entryState : Entry → Option String
  | .esnap s => s.state
  | .eopts _ => none

/-- One `hass.services.async_call` invocation (fire-and-forget). -/
structure Command where
  domain : String
  service : String
  data : AList Value
deriving DecidableEq, Repr

/-- `{k: v for k, v in info.get("attributes", {}).items() if v is not None}`. -/
def nonNullAttrs (attrs : AList Value) : AList Value :=
  attrs.filter (fun p => p.2 ≠ Value.null)

/-- The allowed-attribute set computed in the light branch of `apply_state`:
the first matched `ATTR_ATTRS` group, else the `COLOR_MODE_ATTRS` row of the
saved `color_mode` (default `color_temp`; non-string or unknown mode gives
the empty set). -/
def lightAllowedAttrs (attrs : AList Value) : List String :=
  match (attrAttrs.find? (fun p => (alistLookup attrs p.1).isSome)).map Prod.snd with
  | some allowed => allowed
  | none =>
    match (alistLookup attrs "color_mode").getD (Value.str "color_temp") with
    | Value.str cm => (alistLookup colorModeAttrs cm).getD []
    | _ => []

/-- `safe_attrs` of the light branch: filter to allowed or common attributes,
then drop `color_temp` when `color_temp_kelvin` is present and
`brightness_pct` when `brightness` is present. -/
def lightSafeAttrs (attrs : AList Value) : AList Value :=
  let allowed := lightAllowedAttrs attrs
  let safe := attrs.filter
    (fun p => allowed.contains p.1 || commonLightAttrs.contains p.1)
  let safe :=
    if (alistLookup safe "color_temp_kelvin").isSome
        && (alistLookup safe "color_temp").isSome then
      alistErase safe "color_temp"
    else safe
  if (alistLookup safe "brightness").isSome
      && (alistLookup safe "brightness_pct").isSome then
    alistErase safe "brightness_pct"
  else safe

/-- The `turn_on` payload `{ATTR_ENTITY_ID: eid, "transition": 0, **safe_attrs}`. -/
def lightOnData (eid : String) (attrs : AList Value) : AList Value :=
  alistMerge [("entity_id", Value.str eid), ("transition", Value.num 0)]
    (lightSafeAttrs attrs)

/-- Light branch of `apply_state`. -/
def lightCmds (eid : String) (s : String) (attrs : AList Value)
    (options : OptDict) : List Command :=
  let restore_attrs := optRLA options
  let should_restore := s == "on" || restore_attrs
  (if should_restore then
    [⟨"light", "turn_on", lightOnData eid attrs⟩]
   else []) ++
  (if s == "off" then
    [⟨"light", "turn_off",
      [("entity_id", Value.str eid), ("transition", Value.num 0)]⟩]
   else [])

/-- Cover branch of `apply_state`. -/
def coverCmds (eid : String) (s : String) (attrs : AList Value) : List Command :=
  let position := alistLookup attrs "position"
  let tilt := alistLookup attrs "tilt_position"
  (match position with
   | some p =>
     [⟨"cover", "set_cover_position",
       [("entity_id", Value.str eid), ("position", p)]⟩]
   | none => []) ++
  (match tilt with
   | some t =>
     [⟨"cover", "set_cover_tilt_position",
       [("entity_id", Value.str eid), ("tilt_position", t)]⟩]
   | none => []) ++
  (if position = none ∧ tilt = none then
    [⟨"cover",
      if s == "open" then "open_cover"
      else if s == "closed" then "close_cover"
      else if s == "on" then "open_cover" else "close_cover",
      [("entity_id", Value.str eid)]⟩]
   else [])

/-- Climate branch of `apply_state`.  The mode only travels inside a
`set_temperature` payload; sub-attributes get one service call each. -/
def climateCmds (eid : String) (s : String) (attrs : AList Value) : List Command :=
  if s == "" then []
  else
    let base := [("entity_id", Value.str eid), ("hvac_mode", Value.str s)]
    let dual :=
      if s == "heat_cool" then
        (alistLookup attrs "target_temp_low").bind (fun lo =>
          (alistLookup attrs "target_temp_high").map (fun hi => (lo, hi)))
      else none
    let tempCmds :=
      match dual with
      | some (lo, hi) =>
        [⟨"climate", "set_temperature",
          base ++ [("target_temp_low", lo), ("target_temp_high", hi)]⟩]
      | none =>
        match alistLookup attrs "temperature" with
        | some t => [⟨"climate", "set_temperature", base ++ [("temperature", t)]⟩]
        | none => []
    let subCmds :=
      (["fan_mode", "swing_mode", "preset_mode", "humidity"].filterMap
        (fun k => (alistLookup attrs k).map
          (fun v => Command.mk "climate" ("set_" ++ k)
            [("entity_id", Value.str eid), (k, v)])))
    tempCmds ++ subCmds

/-- Media-player branch of `apply_state`. -/
def mediaCmds (eid : String) (s : String) (attrs : AList Value) : List Command :=
  let svc :=
    if s == "on" then some "turn_on"
    else if s == "off" then some "turn_off"
    else if s == "playing" then some "media_play"
    else if s == "paused" then some "media_pause"
    else if s == "idle" then some "media_stop"
    else none
  match svc with
  | none => []
  | some sv =>
    [⟨"media_player", sv, [("entity_id", Value.str eid)]⟩] ++
    (match alistLookup attrs "volume_level" with
     | some v =>
       [⟨"media_player", "volume_set",
         [("entity_id", Value.str eid), ("volume_level", v)]⟩]
     | none => []) ++
    (match alistLookup attrs "source" with
     | some v =>
       [⟨"media_player", "select_source",
         [("entity_id", Value.str eid), ("source", v)]⟩]
     | none => [])

/-- Simplified lexical model of Python `float(state)` acceptance: optional
sign, then digits with at most one decimal point (at least one digit). -/
def pyFloatAccepts (s : String) : Bool :=
  let t := s.trim
  let t := if t.startsWith "+" || t.startsWith "-" then t.drop 1 else t
  let cs := t.toList
  (cs.any Char.isDigit) && cs.all (fun c => c.isDigit || c = '.')
    && (cs.filter (fun c => c = '.')).length ≤ 1

/-- Input-number branch of `apply_state`. -/
def numberCmds (eid : String) (s : String) : List Command :=
  if pyFloatAccepts s then
    [⟨"input_number", "set_value",
      [("entity_id", Value.str eid), ("value", Value.floatLit s)]⟩]
  else []

/-- `apply_state` as a pure command mapper: given the entity id, its saved
snapshot, the merged options and the entity's current live state string
(`none` when absent), return the service calls it dispatches, in order. -/
def applyState (eid : String) (info : Snapshot) (options : OptDict)
    (liveState : Option String) : List Command :=
  let domain := domainOf eid
  let attrs := nonNullAttrs info.attributes
  match info.state with
  | none => []
  | some s =>
    if s = "" then []
    else if !(targetUsable liveState) then []
    else if nonRestorableDomains.contains domain then []
    else if domain == "lock" && !(s == "locked" || s == "unlocked") then []
    else if domain == "light" then lightCmds eid s attrs options
    else if domain == "cover" then coverCmds eid s attrs
    else if domain == "climate" then climateCmds eid s attrs
    else if domain == "media_player" then mediaCmds eid s attrs
    else if domain == "lock" then
      [⟨"lock", if s == "locked" then "lock" else "unlock",
        [("entity_id", Value.str eid)]⟩]
    else if ["fan", "humidifier", "remote", "siren", "switch",
             "input_boolean"].contains domain then
      [⟨domain, if s == "on" then "turn_on" else "turn_off",
        [("entity_id", Value.str eid)]⟩]
    else if domain == "input_number" then numberCmds eid s
    else if domain == "input_select" then
      [⟨"input_select", "select_option",
        [("entity_id", Value.str eid), ("option", Value.str s)]⟩]
    else if domain == "input_text" then
      [⟨"input_text", "set_value",
        [("entity_id", Value.str eid), ("value", Value.str s)]⟩]
    else []

/-- One stored scene: entity id (or `_options`) to entry. -/
abbrev SceneMap : Type := AList Entry

/-- `stored_data`: scene id to scene map. -/
abbrev StoredData : Type := AList SceneMap

/-- Outcome of `apply_scene`: the aggregate success flag, every dispatched
command, the (unchanged) stored map and the entities whose restoration was
attempted. -/
structure ApplyOutcome where
  success : Bool
  commands : List Command
  stored : StoredData
  invoked : List String
deriving DecidableEq, Repr

/-- `apply_scene`.  `hass` gives each entity's current live state; `fail eid`
is `some k` when that entity's `apply_state` raises after `k` dispatched
commands (the exception is caught by `safe_apply`), `none` when it does not
raise.  Timeouts and mismatches of individual commands are not exceptions and
leave the success flag untouched. -/
def applyScene (userOptions : OptDict) (hass : String → Option String)
    (fail : String → Option Nat) (stored : StoredData)
    (sceneId : String) : ApplyOutcome :=
  match alistLookup stored sceneId with
  | none => ⟨false, [], stored, []⟩
  | some scene =>
    let states := alistErase scene "_options"
    let opts :=
      match alistLookup scene "_options" with
      | some (.eopts o) => optUpdate userOptions o
      | _ => userOptions
    let per := states.map (fun p =>
      let info := match p.2 with | .esnap s => s | .eopts _ => ⟨none, []⟩
      let cmds := applyState p.1 info opts (hass p.1)
      match fail p.1 with
      | none => (p.1, cmds, true)
      | some k => (p.1, cmds.take k, false))
    ⟨per.all (fun q => q.2.2),
     (per.map (fun q => q.2.1)).flatten,
     stored,
     per.map (fun q => q.1)⟩

/-- A live state object (`homeassistant.core.State`). -/
structure StateObj where
  entity_id : String
  state : String
  attributes : AList Value
deriving DecidableEq, Repr

/-- Outcome of one `async_call_and_wait_state` call, as seen by
`async_run_actions_sequentially` (only the fields `save_scene` reads). -/
structure ActionResult where
  matched : Bool
  timeout : Bool
  new_state : Option StateObj
deriving DecidableEq, Repr

/-- Device-behaviour oracle for light elicitation: the results of the
`turn_on`-expect-`on` action and the `turn_off`-expect-`off` action run by
`snapshot_light` on one entity. -/
abbrev ProbeOracle : Type := String → ActionResult × ActionResult

/-- `snapshot_light` inside `save_scene`: drop the snapshot when the power-on
confirmation timed out or mismatched (warning only for power-off failures),
else return the elicited state object and the state string to record. -/
def snapshotLight (probe : ProbeOracle) (eid : String) (state : String) :
    Option (Option StateObj × String) :=
  let results := probe eid
  if results.1.timeout || !results.1.matched then none
  else some (results.1.new_state, state)

/-- Condition under which `save_scene` defers a light to elicitation:
aggressive capture enabled, light domain, live state `off`. -/
def elicitCond (opts : OptDict) (st : StateObj) (eid : String) : Bool :=
  optRLA opts && domainOf eid == "light" && st.state == "off"

/-- Loop body of the first pass of `save_scene`: skip non-restorable domains
and absent entities, defer aggressive off-lights to the task list, record
everything else directly. -/
def firstStep (opts : OptDict) (hass : String → Option StateObj)
    (acc : SceneMap × List String) (eid : String) : SceneMap × List String :=
  if nonRestorableDomains.contains (domainOf eid) then acc
  else
    match hass eid with
    | none => acc
    | some st =>
      if elicitCond opts st eid then (acc.1, acc.2 ++ [eid])
      else (alistInsert acc.1 eid
              (.esnap ⟨some st.state, st.attributes⟩), acc.2)

/-- First pass of `save_scene`: direct captures and the elicitation task
list, accumulated in entity order. -/
def firstPass (opts : OptDict) (hass : String → Option StateObj)
    (entities : List String) (init : SceneMap × List String) :
    SceneMap × List String :=
  entities.foldl (firstStep opts hass) init

/-- Loop body of the combine step of `save_scene`: record the elicited
attributes under the state object's entity id when the probe succeeded and
returned a state object. -/
def elicitStep (probe : ProbeOracle) (m : SceneMap) (eid : String) : SceneMap :=
  match snapshotLight probe eid "off" with
  | none => m
  | some r =>
    match r.1 with
    | none => m
    | some st => alistInsert m st.entity_id (.esnap ⟨some r.2, st.attributes⟩)

/-- Combine step of `save_scene`, over the elicitation task list in order. -/
def elicitPass (probe : ProbeOracle) (states : SceneMap)
    (tasks : List String) : SceneMap :=
  tasks.foldl (elicitStep probe) states

/-- Validity check on a prior snapshot used by the fallback pass:
its state is not `unavailable`, `unknown` or absent. -/
def entryValid (e : Entry) : Bool :=
  match entryState e with
  | none => false
  | some s => !(s == "unavailable" || s == "unknown")

/-- Condition of the fallback pass on the current round's map: no entry, or
an entry whose state is `unavailable`. -/
def fallbackNeeded (m : SceneMap) (eid : String) : Bool :=
  match alistLookup m eid with
  | none => true
  | some cur => entryState cur == some "unavailable"

/-- Loop body of the fallback pass of `save_scene`. -/
def fallbackStep (entities : List String) (m : SceneMap)
    (p : String × Entry) : SceneMap :=
  if entities.contains p.1 && fallbackNeeded m p.1 then
    if entryValid p.2 then alistInsert m p.1 p.2 else m
  else m

/-- Fallback pass of `save_scene`: reuse prior snapshots of the same scene for
requested entities whose current round is missing or `unavailable`, when the
prior snapshot itself is valid. -/
def fallbackPass (entities : List String) (prior : SceneMap)
    (states : SceneMap) : SceneMap :=
  prior.foldl (fallbackStep entities) states

/-- The scene map computed by one `save_scene` call (the value stored under
the scene id).  `hass` is the live-state source and `probe` the elicitation
oracle. -/
def saveSceneStates (userOptions : OptDict) (stored : StoredData)
    (hass : String → Option StateObj) (probe : ProbeOracle)
    (sceneId : String) (entities : List String)
    (options : Option OptDict) : SceneMap :=
  let opts := optUpdate userOptions (options.getD {})
  let fp := firstPass opts hass entities ([], [])
  let states := elicitPass probe fp.1 fp.2
  let prior := (alistLookup stored sceneId).getD []
  let states := fallbackPass entities prior states
  match options with
  | some o => alistInsert states "_options" (.eopts o)
  | none => states

/-- Full `save_scene` effect on the stored map. -/
def saveScene (userOptions : OptDict) (stored : StoredData)
    (hass : String → Option StateObj) (probe : ProbeOracle)
    (sceneId : String) (entities : List String)
    (options : Option OptDict) : StoredData :=
  alistInsert stored sceneId
    (saveSceneStates userOptions stored hass probe sceneId entities options)

/-! Characterizations of the `save_scene` passes, used to state and prove the
lookup behaviour of the stored scene map.  These are derived descriptions,
proved equivalent to the fold-based definitions above. -/

/-- The entry the first pass records directly for an entity, if any. -/
def directCapture (opts : OptDict) (hass : String → Option StateObj)
    (eid : String) : Option Entry :=
  if nonRestorableDomains.contains (domainOf eid) then none
  else
    match hass eid with
    | none => none
    | some st =>
      if elicitCond opts st eid then none
      else some (.esnap ⟨some st.state, st.attributes⟩)

/-- Whether the first pass defers an entity to elicitation. -/
def taskCond (opts : OptDict) (hass : String → Option StateObj)
    (eid : String) : Bool :=
  !(nonRestorableDomains.contains (domainOf eid)) &&
    (match hass eid with
     | none => false
     | some st => elicitCond opts st eid)

/-- The entry the combine step records for one elicitation task, if any. -/
def elicitCapture (probe : ProbeOracle) (eid : String) : Option Entry :=
  match snapshotLight probe eid "off" with
  | some (some st, ss) => some (.esnap ⟨some ss, st.attributes⟩)
  | _ => none

/-- `fallbackNeeded` as a function of the looked-up current entry. -/
def fallbackNeededV : Option Entry → Bool
  | none => true
  | some cur => entryState cur == some "unavailable"

/-- The entry recorded for an entity by the capture rounds of `save_scene`
(direct and elicited), before the fallback pass. -/
def captureLookup (opts : OptDict) (hass : String → Option StateObj)
    (probe : ProbeOracle) (entities : List String) (e : String) :
    Option Entry :=
  if e ∈ entities.filter (taskCond opts hass)
      ∧ (elicitCapture probe e).isSome then
    elicitCapture probe e
  else if e ∈ entities ∧ (directCapture opts hass e).isSome then
    directCapture opts hass e
  else none

/-- Rename handling of the options flow (`async_step_init`): returns the new
stored map and whether the `rename_scene_already_exists` error was recorded.
`renameTo` is the form value after the caller's `.strip()`. -/
def renameScene (stored : StoredData) (renameFrom : Option String)
    (renameTo : String) : StoredData × Bool :=
  let tgt := renameTo
  match renameFrom with
  | none => (stored, false)
  | some f =>
    if f ≠ "" ∧ tgt ≠ "" then
      if (alistLookup stored f).isSome then
        if (alistLookup stored tgt).isSome && tgt ≠ f then (stored, true)
        else
          match alistLookup stored f with
          | some v => (alistInsert (alistErase stored f) tgt v, false)
          | none => (stored, false)
      else (stored, false)
    else (stored, false)

/-- Spec-side allowed-attribute set for lights, following the claim's words:
a matched special-attribute group (profile, then white) wins, else the fixed
color-mode table applied to the snapshot's color mode (default color_temp). -/
def lightAllowedSpec (attrs : AList Value) : List String :=
  if (alistLookup attrs "profile").isSome then ["brightness", "brightness_pct"]
  else if (alistLookup attrs "white").isSome then ["brightness", "brightness_pct"]
  else
    match (alistLookup attrs "color_mode").getD (Value.str "color_temp") with
    | Value.str cm => (alistLookup colorModeAttrs cm).getD []
    | _ => []

/-- Spec-side power-on payload for lights, following the amended claim: the
entity id, transition forced to 0, and exactly those saved non-null
attributes in the allowed set or in the universal set (effect, flash, white,
profile - not transition), with color_temp dropped in favour of
color_temp_kelvin and brightness_pct dropped in favour of brightness. -/
def lightPayloadSpec (eid : String) (attrs : AList Value) : AList Value :=
  let kept := attrs.filter (fun p =>
    (lightAllowedSpec attrs).contains p.1
      || (["effect", "flash", "white", "profile"] : List String).contains p.1)
  let kept :=
    if (alistLookup kept "color_temp_kelvin").isSome
        && (alistLookup kept "color_temp").isSome then
      alistErase kept "color_temp"
    else kept
  let kept :=
    if (alistLookup kept "brightness").isSome
        && (alistLookup kept "brightness_pct").isSome then
      alistErase kept "brightness_pct"
    else kept
  alistMerge [("entity_id", Value.str eid), ("transition", Value.num 0)] kept

/-- Spec-side climate command list, following the amended claim: when the
saved mode is heat_cool and both setpoints are saved, one dual-setpoint
set_temperature command carrying the HVAC mode; else, when a single target
temperature is saved, one single-setpoint set_temperature command carrying
the HVAC mode; else no temperature command (and then no command carries the
HVAC mode at all); afterwards one command per present sub-attribute. -/
def climateCommandsSpec (eid s : String) (attrs : AList Value) : List Command :=
  (if s == "heat_cool" && (alistLookup attrs "target_temp_low").isSome
      && (alistLookup attrs "target_temp_high").isSome then
    [⟨"climate", "set_temperature",
      [("entity_id", Value.str eid), ("hvac_mode", Value.str s),
       ("target_temp_low", (alistLookup attrs "target_temp_low").getD Value.null),
       ("target_temp_high", (alistLookup attrs "target_temp_high").getD Value.null)]⟩]
   else if (alistLookup attrs "temperature").isSome then
    [⟨"climate", "set_temperature",
      [("entity_id", Value.str eid), ("hvac_mode", Value.str s),
       ("temperature", (alistLookup attrs "temperature").getD Value.null)]⟩]
   else []) ++
  (["fan_mode", "swing_mode", "preset_mode", "humidity"].filterMap
    (fun k => (alistLookup attrs k).map
      (fun v => Command.mk "climate" ("set_" ++ k)
        [("entity_id", Value.str eid), (k, v)])))

/-- One state-change notification event delivered to the watcher's callback. -/
structure StateChange where
  old_state : Option StateObj
  new_state : Option StateObj
deriving DecidableEq, Repr

/-- The watcher's result dict. -/
structure WatchResult where
  entity_id : String
  old_state : Option StateObj
  new_state : Option StateObj
  old_value : Option String
  new_value : Option String
  matched : Bool
  timeout : Bool
deriving DecidableEq, Repr

/-- Events on the watcher's trace: listener registration, the service
dispatch, and listener removal. -/
inductive WatchEvent where
  | subscribe
  | dispatch
  | unsubscribe
deriving DecidableEq, Repr

/-- The callback's early-return guard: proceed when no expected state was
given, or the notification's new value equals it. -/
def changeSatisfies (expected : Option String) (ev : StateChange) : Bool :=
  match expected with
  | none => true
  | some e => (ev.new_state.map StateObj.state) == some e

/-- `async_call_and_wait_state`: subscribe, dispatch the service, then resolve
on the first satisfying notification among those arriving before the timeout
(`arrivals`), else produce the timeout result.  `dispatchRaises` models the
service call itself raising (for example an unknown service); that exception
propagates before the `try`/`finally` block is entered, so no result is
produced and the listener is not removed.  Returns the result (when the call
returns) and the event trace. -/
def callAndWaitState (entityId : String) (expected : Option String)
    (arrivals : List StateChange) (dispatchRaises : Bool) :
    Option WatchResult × List WatchEvent :=
  if dispatchRaises then (none, [.subscribe, .dispatch])
  else
    match arrivals.find? (changeSatisfies expected) with
    | some ev =>
      let newValue := ev.new_state.map StateObj.state
      (some ⟨entityId, ev.old_state, ev.new_state,
             ev.old_state.map StateObj.state, newValue,
             (match expected with
              | none => true
              | some e => newValue == some e),
             false⟩,
       [.subscribe, .dispatch, .unsubscribe])
    | none =>
      (some ⟨entityId, none, none, none, none, false, true⟩,
       [.subscribe, .dispatch, .unsubscribe])

/-! Association-list lemmas. -/

theorem alistLookup_insert_self {α : Type} (m : AList α) (k : String) (v : α) :
    alistLookup (alistInsert m k v) k = some v := by
  induction m with
  | nil => simp [alistInsert, alistLookup]
  | cons p t ih =>
    by_cases h : p.1 = k
    · simp [alistInsert, alistLookup, h]
    · simp [alistInsert, alistLookup, h, ih]

theorem alistLookup_insert_ne {α : Type} (m : AList α) (k k' : String) (v : α)
    (h : k ≠ k') : alistLookup (alistInsert m k v) k' = alistLookup m k' := by
  induction m with
  | nil => simp [alistInsert, alistLookup, h]
  | cons p t ih =>
    by_cases hp : p.1 = k
    · simp [alistInsert, alistLookup, hp, h]
    · simp [alistInsert, alistLookup, hp, ih]

theorem alistLookup_erase_ne {α : Type} (m : AList α) (k k' : String)
    (h : k ≠ k') : alistLookup (alistErase m k) k' = alistLookup m k' := by
  induction m with
  | nil => simp [alistErase]
  | cons p t ih =>
    by_cases hp : p.1 = k
    · have hne : p.1 ≠ k' := hp ▸ h
      simp [alistErase, alistLookup, hp, hne, h]
    · simp [alistErase, alistLookup, hp, ih]

theorem alistLookup_eq_none_iff {α : Type} (m : AList α) (k : String) :
    alistLookup m k = none ↔ k ∉ m.map Prod.fst := by
  induction m with
  | nil => simp [alistLookup]
  | cons p t ih =>
    by_cases hp : p.1 = k
    · simp [alistLookup, hp]
    · simp [alistLookup, hp, ih, Ne.symm hp]

theorem alistErase_keys_sublist {α : Type} (m : AList α) (k : String) :
    List.Sublist ((alistErase m k).map Prod.fst) (m.map Prod.fst) := by
  induction m with
  | nil => simp [alistErase]
  | cons p t ih =>
    by_cases hp : p.1 = k
    · simp only [alistErase, hp, if_pos rfl]
      exact List.sublist_cons_of_sublist _ (List.Sublist.refl _)
    · simp only [alistErase, hp, if_neg hp, List.map_cons]
      exact List.Sublist.cons₂ _ ih

theorem alistErase_keys_nodup {α : Type} (m : AList α) (k : String)
    (h : (m.map Prod.fst).Nodup) : ((alistErase m k).map Prod.fst).Nodup :=
  h.sublist (alistErase_keys_sublist m k)

theorem alistLookup_erase_self {α : Type} (m : AList α) (k : String)
    (h : (m.map Prod.fst).Nodup) : alistLookup (alistErase m k) k = none := by
  induction m with
  | nil => simp [alistErase, alistLookup]
  | cons p t ih =>
    simp only [List.map_cons, List.nodup_cons] at h
    by_cases hp : p.1 = k
    · simp only [alistErase, if_pos hp]
      rw [alistLookup_eq_none_iff]
      exact hp ▸ h.1
    · simp [alistErase, alistLookup, hp, ih h.2]

theorem alistInsert_keys_of_not_mem {α : Type} (m : AList α) (k : String)
    (v : α) (h : k ∉ m.map Prod.fst) :
    (alistInsert m k v).map Prod.fst = m.map Prod.fst ++ [k] := by
  induction m with
  | nil => simp [alistInsert]
  | cons p t ih =>
    simp only [List.map_cons, List.mem_cons] at h
    push_neg at h
    simp [alistInsert, Ne.symm h.1, ih h.2]

theorem alistInsert_keys_nodup_of_not_mem {α : Type} (m : AList α)
    (k : String) (v : α) (hm : (m.map Prod.fst).Nodup)
    (h : k ∉ m.map Prod.fst) :
    ((alistInsert m k v).map Prod.fst).Nodup := by
  rw [alistInsert_keys_of_not_mem m k v h]
  simp [List.nodup_append, hm, h]

/-! Branch lemmas for `firstStep` and `directCapture`. -/

theorem directCapture_of_nr (opts : OptDict) (hass : String → Option StateObj)
    (e : String) (h1 : domainOf e ∈ nonRestorableDomains) :
    directCapture opts hass e = none := by
  simp [directCapture, h1]

theorem directCapture_of_absent (opts : OptDict)
    (hass : String → Option StateObj) (e : String)
    (h1 : domainOf e ∉ nonRestorableDomains) (hh : hass e = none) :
    directCapture opts hass e = none := by
  simp [directCapture, h1, hh]

theorem directCapture_of_elicit (opts : OptDict)
    (hass : String → Option StateObj) (e : String) (st : StateObj)
    (h1 : domainOf e ∉ nonRestorableDomains) (hh : hass e = some st)
    (h2 : elicitCond opts st e = true) :
    directCapture opts hass e = none := by
  simp [directCapture, h1, hh, h2]

theorem directCapture_of_direct (opts : OptDict)
    (hass : String → Option StateObj) (e : String) (st : StateObj)
    (h1 : domainOf e ∉ nonRestorableDomains) (hh : hass e = some st)
    (h2 : elicitCond opts st e = false) :
    directCapture opts hass e
      = some (.esnap ⟨some st.state, st.attributes⟩) := by
  simp [directCapture, h1, hh, h2]

theorem firstStep_nr (opts : OptDict) (hass : String → Option StateObj)
    (init : SceneMap × List String) (x : String)
    (h1 : domainOf x ∈ nonRestorableDomains) :
    firstStep opts hass init x = init := by
  simp [firstStep, h1]

theorem firstStep_absent (opts : OptDict) (hass : String → Option StateObj)
    (init : SceneMap × List String) (x : String)
    (h1 : domainOf x ∉ nonRestorableDomains) (hh : hass x = none) :
    firstStep opts hass init x = init := by
  simp [firstStep, h1, hh]

theorem firstStep_task (opts : OptDict) (hass : String → Option StateObj)
    (init : SceneMap × List String) (x : String) (st : StateObj)
    (h1 : domainOf x ∉ nonRestorableDomains) (hh : hass x = some st)
    (h2 : elicitCond opts st x = true) :
    firstStep opts hass init x = (init.1, init.2 ++ [x]) := by
  simp [firstStep, h1, hh, h2]

theorem firstStep_direct (opts : OptDict) (hass : String → Option StateObj)
    (init : SceneMap × List String) (x : String) (st : StateObj)
    (h1 : domainOf x ∉ nonRestorableDomains) (hh : hass x = some st)
    (h2 : elicitCond opts st x = false) :
    firstStep opts hass init x
      = (alistInsert init.1 x (.esnap ⟨some st.state, st.attributes⟩),
         init.2) := by
  simp [firstStep, h1, hh, h2]

theorem taskCond_of_nr (opts : OptDict) (hass : String → Option StateObj)
    (x : String) (h1 : domainOf x ∈ nonRestorableDomains) :
    taskCond opts hass x = false := by
  simp [taskCond, List.elem_iff, h1]

theorem taskCond_of_absent (opts : OptDict) (hass : String → Option StateObj)
    (x : String) (hh : hass x = none) : taskCond opts hass x = false := by
  simp [taskCond, hh]

theorem taskCond_of_state (opts : OptDict) (hass : String → Option StateObj)
    (x : String) (st : StateObj) (h1 : domainOf x ∉ nonRestorableDomains)
    (hh : hass x = some st) : taskCond opts hass x = elicitCond opts st x := by
  simp [taskCond, List.elem_iff, h1, hh]

/-! Lookup and task-list characterization of the first pass. -/

theorem firstStep_fst_lookup (opts : OptDict) (hass : String → Option StateObj)
    (init : SceneMap × List String) (x e : String) :
    alistLookup (firstStep opts hass init x).1 e
      = if x = e ∧ (directCapture opts hass e).isSome = true then
          directCapture opts hass e
        else alistLookup init.1 e := by
  by_cases h1 : domainOf x ∈ nonRestorableDomains
  · rw [firstStep_nr opts hass init x h1]
    by_cases hx : x = e
    · subst hx; simp [directCapture_of_nr opts hass x h1]
    · simp [hx]
  · cases hh : hass x with
    | none =>
      rw [firstStep_absent opts hass init x h1 hh]
      by_cases hx : x = e
      · subst hx; simp [directCapture_of_absent opts hass x h1 hh]
      · simp [hx]
    | some st =>
      by_cases h2 : elicitCond opts st x = true
      · rw [firstStep_task opts hass init x st h1 hh h2]
        by_cases hx : x = e
        · subst hx; simp [directCapture_of_elicit opts hass x st h1 hh h2]
        · simp [hx]
      · have h2' : elicitCond opts st x = false := by
          simpa using h2
        rw [firstStep_direct opts hass init x st h1 hh h2']
        by_cases hx : x = e
        · subst hx
          simp [alistLookup_insert_self,
                directCapture_of_direct opts hass x st h1 hh h2']
        · simp [hx, alistLookup_insert_ne _ _ _ _ hx]

theorem firstStep_snd (opts : OptDict) (hass : String → Option StateObj)
    (init : SceneMap × List String) (x : String) :
    (firstStep opts hass init x).2
      = if taskCond opts hass x = true then init.2 ++ [x] else init.2 := by
  by_cases h1 : domainOf x ∈ nonRestorableDomains
  · rw [firstStep_nr opts hass init x h1, taskCond_of_nr opts hass x h1]
    simp
  · cases hh : hass x with
    | none =>
      rw [firstStep_absent opts hass init x h1 hh,
          taskCond_of_absent opts hass x hh]
      simp
    | some st =>
      rw [taskCond_of_state opts hass x st h1 hh]
      by_cases h2 : elicitCond opts st x = true
      · rw [firstStep_task opts hass init x st h1 hh h2, h2]
        simp
      · have h2' : elicitCond opts st x = false := by simpa using h2
        rw [firstStep_direct opts hass init x st h1 hh h2', h2']
        simp

theorem firstPass_tasks (opts : OptDict) (hass : String → Option StateObj)
    (l : List String) :
    ∀ init, (firstPass opts hass l init).2
      = init.2 ++ l.filter (taskCond opts hass) := by
  induction l with
  | nil => intro init; simp [firstPass]
  | cons x t ih =>
    intro init
    have hstep : firstPass opts hass (x :: t) init
        = firstPass opts hass t (firstStep opts hass init x) := by
      simp [firstPass]
    rw [hstep, ih, firstStep_snd]
    by_cases hc : taskCond opts hass x = true
    · simp [hc, List.filter_cons]
    · simp [hc, List.filter_cons]

theorem firstPass_lookup (opts : OptDict) (hass : String → Option StateObj)
    (l : List String) (e : String) :
    ∀ init, alistLookup (firstPass opts hass l init).1 e
      = if e ∈ l ∧ (directCapture opts hass e).isSome = true then
          directCapture opts hass e
        else alistLookup init.1 e := by
  induction l with
  | nil => intro init; simp [firstPass]
  | cons x t ih =>
    intro init
    have hstep : firstPass opts hass (x :: t) init
        = firstPass opts hass t (firstStep opts hass init x) := by
      simp [firstPass]
    rw [hstep, ih, firstStep_fst_lookup]
    by_cases hd : (directCapture opts hass e).isSome = true
    · by_cases ht : e ∈ t
      · simp [hd, ht]
      · by_cases hx : x = e
        · simp [hd, ht, hx]
        · simp [hd, ht, hx, Ne.symm hx]
    · simp [hd]

/-! Branch lemmas for `elicitStep` and `elicitCapture`. -/

theorem elicitCapture_of_fail (probe : ProbeOracle) (x : String)
    (hfail : ((probe x).1.timeout || !(probe x).1.matched) = true) :
    elicitCapture probe x = none := by
  simp [elicitCapture, snapshotLight, hfail]

theorem elicitCapture_of_no_state (probe : ProbeOracle) (x : String)
    (hok : ((probe x).1.timeout || !(probe x).1.matched) = false)
    (hns : (probe x).1.new_state = none) :
    elicitCapture probe x = none := by
  simp [elicitCapture, snapshotLight, hok, hns]

theorem elicitCapture_of_state (probe : ProbeOracle) (x : String)
    (st : StateObj)
    (hok : ((probe x).1.timeout || !(probe x).1.matched) = false)
    (hns : (probe x).1.new_state = some st) :
    elicitCapture probe x = some (.esnap ⟨some "off", st.attributes⟩) := by
  simp [elicitCapture, snapshotLight, hok, hns]

theorem elicitStep_fail (probe : ProbeOracle) (m : SceneMap) (x : String)
    (hfail : ((probe x).1.timeout || !(probe x).1.matched) = true) :
    elicitStep probe m x = m := by
  simp [elicitStep, snapshotLight, hfail]

theorem elicitStep_no_state (probe : ProbeOracle) (m : SceneMap) (x : String)
    (hok : ((probe x).1.timeout || !(probe x).1.matched) = false)
    (hns : (probe x).1.new_state = none) :
    elicitStep probe m x = m := by
  simp [elicitStep, snapshotLight, hok, hns]

theorem elicitStep_state (probe : ProbeOracle) (m : SceneMap) (x : String)
    (st : StateObj)
    (hok : ((probe x).1.timeout || !(probe x).1.matched) = false)
    (hns : (probe x).1.new_state = some st) :
    elicitStep probe m x
      = alistInsert m st.entity_id (.esnap ⟨some "off", st.attributes⟩) := by
  simp [elicitStep, snapshotLight, hok, hns]

theorem elicitStep_lookup (probe : ProbeOracle) (m : SceneMap) (x e : String)
    (hwf : ∀ st, (probe x).1.new_state = some st → st.entity_id = x) :
    alistLookup (elicitStep probe m x) e
      = if x = e ∧ (elicitCapture probe e).isSome = true then
          elicitCapture probe e
        else alistLookup m e := by
  by_cases hfail : ((probe x).1.timeout || !(probe x).1.matched) = true
  · rw [elicitStep_fail probe m x hfail]
    by_cases hx : x = e
    · subst hx; simp [elicitCapture_of_fail probe x hfail]
    · simp [hx]
  · have hok : ((probe x).1.timeout || !(probe x).1.matched) = false := by
      simpa using hfail
    cases hns : (probe x).1.new_state with
    | none =>
      rw [elicitStep_no_state probe m x hok hns]
      by_cases hx : x = e
      · subst hx; simp [elicitCapture_of_no_state probe x hok hns]
      · simp [hx]
    | some st =>
      have hid : st.entity_id = x := hwf st hns
      rw [elicitStep_state probe m x st hok hns, hid]
      by_cases hx : x = e
      · subst hx
        simp [alistLookup_insert_self,
              elicitCapture_of_state probe x st hok hns]
      · simp [hx, alistLookup_insert_ne _ _ _ _ hx]

theorem elicitPass_lookup (probe : ProbeOracle) (tasks : List String)
    (e : String)
    (hwf : ∀ x st, (probe x).1.new_state = some st → st.entity_id = x) :
    ∀ states, alistLookup (elicitPass probe states tasks) e
      = if e ∈ tasks ∧ (elicitCapture probe e).isSome = true then
          elicitCapture probe e
        else alistLookup states e := by
  induction tasks with
  | nil => intro states; simp [elicitPass]
  | cons x t ih =>
    intro states
    have hstep : elicitPass probe states (x :: t)
        = elicitPass probe (elicitStep probe states x) t := by
      simp [elicitPass]
    rw [hstep, ih, elicitStep_lookup probe states x e (hwf x)]
    by_cases hd : (elicitCapture probe e).isSome = true
    · by_cases ht : e ∈ t
      · simp [hd, ht]
      · by_cases hx : x = e
        · simp [hd, ht, hx]
        · simp [hd, ht, hx, Ne.symm hx]
    · simp [hd]

/-! Characterization of the fallback pass. -/

theorem fallbackNeeded_eq (m : SceneMap) (e : String) :
    fallbackNeeded m e = fallbackNeededV (alistLookup m e) := by
  unfold fallbackNeeded fallbackNeededV
  cases alistLookup m e <;> rfl

theorem fallbackStep_lookup_ne (entities : List String) (m : SceneMap)
    (p : String × Entry) (e : String) (h : p.1 ≠ e) :
    alistLookup (fallbackStep entities m p) e = alistLookup m e := by
  unfold fallbackStep
  by_cases hc : p.1 ∈ entities ∧ fallbackNeeded m p.1 = true
  · by_cases hv : entryValid p.2 = true
    · simp [hc, hv, alistLookup_insert_ne _ _ _ _ h]
    · simp [hc, hv]
  · simp [hc]

theorem fallbackPass_lookup_notkey (entities : List String) (prior : SceneMap)
    (e : String) (h : e ∉ prior.map Prod.fst) :
    ∀ states, alistLookup (fallbackPass entities prior states) e
      = alistLookup states e := by
  induction prior with
  | nil => intro states; simp [fallbackPass]
  | cons p t ih =>
    intro states
    simp only [List.map_cons, List.mem_cons] at h
    push_neg at h
    have hstep : fallbackPass entities (p :: t) states
        = fallbackPass entities t (fallbackStep entities states p) := by
      simp [fallbackPass]
    rw [hstep, ih h.2, fallbackStep_lookup_ne entities states p e (Ne.symm h.1)]

theorem fallbackPass_lookup (entities : List String) (prior : SceneMap)
    (e : String) (hnd : (prior.map Prod.fst).Nodup) :
    ∀ states, alistLookup (fallbackPass entities prior states) e
      = match alistLookup prior e with
        | none => alistLookup states e
        | some pv =>
          if e ∈ entities ∧ fallbackNeededV (alistLookup states e) = true then
            (if entryValid pv = true then some pv else alistLookup states e)
          else alistLookup states e := by
  induction prior with
  | nil => intro states; simp [fallbackPass, alistLookup]
  | cons p t ih =>
    intro states
    simp only [List.map_cons, List.nodup_cons] at hnd
    have hstep : fallbackPass entities (p :: t) states
        = fallbackPass entities t (fallbackStep entities states p) := by
      simp [fallbackPass]
    by_cases hp : p.1 = e
    · subst hp
      rw [hstep, fallbackPass_lookup_notkey entities t p.1 hnd.1]
      show alistLookup (fallbackStep entities states p) p.1
        = match alistLookup (p :: t) p.1 with
          | none => alistLookup states p.1
          | some pv =>
            if p.1 ∈ entities
                ∧ fallbackNeededV (alistLookup states p.1) = true then
              (if entryValid pv = true then some pv
               else alistLookup states p.1)
            else alistLookup states p.1
      have hhead : alistLookup (p :: t) p.1 = some p.2 := by
        cases p with
        | mk k v => simp [alistLookup]
      rw [hhead]
      unfold fallbackStep
      rw [fallbackNeeded_eq]
      by_cases hin : p.1 ∈ entities
      · have hin' : entities.contains p.1 = true := List.elem_iff.mpr hin
        by_cases hneed : fallbackNeededV (alistLookup states p.1) = true
        · by_cases hv : entryValid p.2 = true
          · simp [hin', hneed, hv, hin, alistLookup_insert_self]
          · simp [hin', hneed, hv, hin]
        · simp [hin', hneed]
      · have hin' : entities.contains p.1 = false := by
          simp [List.elem_iff, hin]
        simp [hin', hin]
    · rw [hstep, ih hnd.2]
      have hlook : alistLookup (p :: t) e = alistLookup t e := by
        cases p with
        | mk k v =>
          simp only [alistLookup]
          rw [if_neg hp]
      rw [hlook,
          fallbackStep_lookup_ne entities states p e hp]

/-! Master lookup characterization of one `save_scene` round. -/

theorem captureLookup_eq (opts : OptDict) (hass : String → Option StateObj)
    (probe : ProbeOracle) (entities : List String) (e : String)
    (hwf : ∀ x st, (probe x).1.new_state = some st → st.entity_id = x) :
    alistLookup
      (elicitPass probe (firstPass opts hass entities ([], [])).1
        (firstPass opts hass entities ([], [])).2) e
      = captureLookup opts hass probe entities e := by
  have htasks : (firstPass opts hass entities ([], [])).2
      = entities.filter (taskCond opts hass) := by
    rw [firstPass_tasks]
    simp
  rw [elicitPass_lookup probe _ e hwf, htasks, firstPass_lookup]
  unfold captureLookup
  by_cases c1 : e ∈ entities.filter (taskCond opts hass)
      ∧ (elicitCapture probe e).isSome = true
  · simp [c1]
  · by_cases c2 : e ∈ entities ∧ (directCapture opts hass e).isSome = true
    · simp [c1, c2]
    · simp [c1, c2, alistLookup]

theorem saveSceneStates_lookup (userOptions : OptDict) (stored : StoredData)
    (hass : String → Option StateObj) (probe : ProbeOracle)
    (sceneId : String) (entities : List String) (options : Option OptDict)
    (e : String)
    (hwf : ∀ x st, (probe x).1.new_state = some st → st.entity_id = x)
    (hnd : ((((alistLookup stored sceneId).getD []) : SceneMap).map
      Prod.fst).Nodup)
    (hne : e ≠ "_options") :
    alistLookup
      (saveSceneStates userOptions stored hass probe sceneId entities options)
      e
      = match alistLookup ((alistLookup stored sceneId).getD []) e with
        | none =>
          captureLookup (optUpdate userOptions (options.getD {})) hass probe
            entities e
        | some pv =>
          if e ∈ entities
              ∧ fallbackNeededV
                  (captureLookup (optUpdate userOptions (options.getD {}))
                    hass probe entities e) = true then
            (if entryValid pv = true then some pv
             else captureLookup (optUpdate userOptions (options.getD {}))
               hass probe entities e)
          else
            captureLookup (optUpdate userOptions (options.getD {})) hass probe
              entities e := by
  unfold saveSceneStates
  cases options with
  | none =>
    rw [fallbackPass_lookup _ _ e hnd,
        captureLookup_eq _ hass probe entities e hwf]
  | some o =>
    rw [alistLookup_insert_ne _ _ _ _ (Ne.symm hne),
        fallbackPass_lookup _ _ e hnd,
        captureLookup_eq _ hass probe entities e hwf]

/-! Claim theorems. -/

/-- Claim C7: for every scene id not present in the stored map, apply_scene
returns false, dispatches no device command, attempts no entity, and leaves
the stored map unchanged. -/
theorem applyScene_unknown_scene (userOptions : OptDict)
    (hass : String → Option String) (fail : String → Option Nat)
    (stored : StoredData) (sceneId : String)
    (h : alistLookup stored sceneId = none) :
    applyScene userOptions hass fail stored sceneId
      = ⟨false, [], stored, []⟩ := by
  unfold applyScene
  rw [h]

/-- Witness for C7 at a concrete unknown scene id. -/
theorem applyScene_unknown_scene_witness :
    applyScene {} (fun _ => none) (fun _ => none) [] "party"
      = ⟨false, [], [], []⟩ :=
  applyScene_unknown_scene {} (fun _ => none) (fun _ => none) [] "party"
    (by decide)

/-- Claim C4: for every stored scene, apply_scene attempts restoration of
every entity of the snapshot (the reserved options key aside) regardless of
which entities raise, and returns true exactly when no entity's restoration
raised an exception. -/
theorem applyScene_batch_isolated (userOptions : OptDict)
    (hass : String → Option String) (fail : String → Option Nat)
    (stored : StoredData) (sceneId : String) (scene : SceneMap)
    (h : alistLookup stored sceneId = some scene) :
    (applyScene userOptions hass fail stored sceneId).invoked
        = (alistErase scene "_options").map Prod.fst
      ∧ ((applyScene userOptions hass fail stored sceneId).success = true
          ↔ ∀ eid ∈ (alistErase scene "_options").map Prod.fst,
              fail eid = none) := by
  simp only [applyScene, h]
  constructor
  · rw [List.map_map]
    apply List.map_congr_left
    intro p _
    simp only [Function.comp]
    cases fail p.1 <;> rfl
  · rw [List.all_eq_true]
    constructor
    · intro hf eid hm
      rcases List.mem_map.mp hm with ⟨p, hp, hpe⟩
      have h2 := hf _ (List.mem_map.mpr ⟨p, hp, rfl⟩)
      cases hfp : fail p.1 with
      | none => rw [← hpe]; exact hfp
      | some k =>
        rw [hfp] at h2
        simp at h2
    · intro hf q hq
      rcases List.mem_map.mp hq with ⟨p, hp, hpq⟩
      subst hpq
      have hnone := hf p.1 (List.mem_map.mpr ⟨p, hp, rfl⟩)
      simp only [hnone]

/-- Witness for C4 on a concrete three-entity scene where the second
entity's restoration raises. -/
theorem applyScene_batch_isolated_witness :
    (applyScene {}
        (fun _ => some "on")
        (fun e => if e = "switch.b" then some 0 else none)
        [("s", [("switch.a", .esnap ⟨some "on", []⟩),
                ("switch.b", .esnap ⟨some "on", []⟩),
                ("switch.c", .esnap ⟨some "off", []⟩)])]
        "s").invoked
      = ["switch.a", "switch.b", "switch.c"]
    ∧ ((applyScene {}
        (fun _ => some "on")
        (fun e => if e = "switch.b" then some 0 else none)
        [("s", [("switch.a", .esnap ⟨some "on", []⟩),
                ("switch.b", .esnap ⟨some "on", []⟩),
                ("switch.c", .esnap ⟨some "off", []⟩)])]
        "s").success = true
        ↔ ∀ eid ∈ (["switch.a", "switch.b", "switch.c"] : List String),
            (if eid = "switch.b" then some 0 else none : Option Nat)
              = none) := by
  have h := applyScene_batch_isolated {}
    (fun _ => some "on")
    (fun e => if e = "switch.b" then some 0 else none)
    [("s", [("switch.a", .esnap ⟨some "on", []⟩),
            ("switch.b", .esnap ⟨some "on", []⟩),
            ("switch.c", .esnap ⟨some "off", []⟩)])]
    "s"
    [("switch.a", .esnap ⟨some "on", []⟩),
     ("switch.b", .esnap ⟨some "on", []⟩),
     ("switch.c", .esnap ⟨some "off", []⟩)]
    (by decide)
  exact ⟨by rw [h.1]; decide, by rw [h.2]; decide⟩

/-- The watcher's timeout result: when no satisfying notification arrives
before the timeout (and the dispatch itself did not raise), the result has
timeout true, matched false and null states, and the listener is removed. -/
theorem callAndWaitState_timeout_result (entityId : String)
    (expected : Option String) (arrivals : List StateChange)
    (hnoMatch : arrivals.find? (changeSatisfies expected) = none) :
    callAndWaitState entityId expected arrivals false
      = (some ⟨entityId, none, none, none, none, false, true⟩,
         [.subscribe, .dispatch, .unsubscribe]) := by
  simp [callAndWaitState, hnoMatch]

/-- Claim C9 failing input: when the service dispatch itself raises, the
watcher call exits without removing the state-change listener, because the
dispatch happens before the try/finally block; the claimed guaranteed
cleanup on every exit path fails here. -/
theorem callAndWaitState_dispatch_raise_leaks_listener :
    (callAndWaitState "light.x" (some "on") [] true).2
        = [WatchEvent.subscribe, WatchEvent.dispatch]
      ∧ WatchEvent.unsubscribe ∉ (callAndWaitState "light.x" (some "on") [] true).2
      ∧ (callAndWaitState "light.x" (some "on") []
          false).1
          = some ⟨"light.x", none, none, none, none, false, true⟩ := by
  refine ⟨by decide, by decide, ?_⟩
  rw [callAndWaitState_timeout_result "light.x" (some "on") [] (by decide)]

/-- Claim C10: when the saved non-null attributes contain none of profile,
white and color_mode, the allowed attribute set used by apply_state for a
light is the color_temp row of the color-mode table. -/
theorem lightAllowedAttrs_default_color_temp (attrs : AList Value)
    (h1 : alistLookup (nonNullAttrs attrs) "profile" = none)
    (h2 : alistLookup (nonNullAttrs attrs) "white" = none)
    (h3 : alistLookup (nonNullAttrs attrs) "color_mode" = none) :
    lightAllowedAttrs (nonNullAttrs attrs)
      = ["color_temp", "color_temp_kelvin", "brightness",
         "brightness_pct"] := by
  unfold lightAllowedAttrs
  rw [h3]
  simp [attrAttrs, h1, h2, colorModeAttrs, alistLookup]

/-- Witness for C10 at a concrete snapshot with no recorded color mode. -/
theorem lightAllowedAttrs_default_color_temp_witness :
    lightAllowedAttrs (nonNullAttrs [("brightness", Value.num 3)])
      = ["color_temp", "color_temp_kelvin", "brightness",
         "brightness_pct"] :=
  lightAllowedAttrs_default_color_temp [("brightness", Value.num 3)]
    (by decide) (by decide) (by decide)

/-! C1: climate restoration. -/

theorem climateCmds_eq_spec (eid s : String) (attrs : AList Value)
    (hne : s ≠ "") :
    climateCmds eid s attrs = climateCommandsSpec eid s attrs := by
  have hs : (s == "") = false := by simp [hne]
  unfold climateCmds climateCommandsSpec
  simp only [hs, Bool.false_eq_true, if_false]
  by_cases hhc : (s == "heat_cool") = true
  · cases hlo : alistLookup attrs "target_temp_low" with
    | none =>
      simp only [hhc, hlo, if_true, Option.none_bind, Option.isSome_none,
        Bool.and_false, Bool.false_and, Bool.and_true]
      cases htemp : alistLookup attrs "temperature" with
      | none => simp [htemp]
      | some t => simp [htemp]
    | some lo =>
      cases hhi : alistLookup attrs "target_temp_high" with
      | none =>
        simp only [hhc, hlo, hhi, if_true]
        cases htemp : alistLookup attrs "temperature" with
        | none => simp [htemp]
        | some t => simp [htemp]
      | some hi => simp [hhc, hlo, hhi]
  · have hhc' : (s == "heat_cool") = false := by simpa using hhc
    simp only [hhc', Bool.false_eq_true, if_false, Bool.false_and]
    cases htemp : alistLookup attrs "temperature" with
    | none => simp [htemp]
    | some t => simp [htemp]

theorem applyState_eq_climateCmds (eid : String) (info : Snapshot)
    (opts : OptDict) (liveState : Option String) (s : String)
    (hdom : domainOf eid = "climate") (hstate : info.state = some s)
    (hne : s ≠ "") (hus : targetUsable liveState = true) :
    applyState eid info opts liveState
      = climateCmds eid s (nonNullAttrs info.attributes) := by
  simp [applyState, hstate, hdom, hne, hus, nonRestorableDomains]

/-- Claim C1 (amended): for a climate snapshot with non-empty saved status
and a usable target, the HVAC mode is only communicated inside a
set_temperature command - dual-setpoint when the mode is heat_cool and both
setpoints are saved, single-setpoint when a target temperature is saved; when
neither case applies no command carries the HVAC mode at all (only the
sub-attribute commands are issued). -/
theorem applyState_climate_amended (eid : String) (info : Snapshot)
    (opts : OptDict) (liveState : Option String) (s : String)
    (hdom : domainOf eid = "climate") (hstate : info.state = some s)
    (hne : s ≠ "") (hus : targetUsable liveState = true) :
    applyState eid info opts liveState
        = climateCommandsSpec eid s (nonNullAttrs info.attributes)
      ∧ (((s == "heat_cool")
            && (alistLookup (nonNullAttrs info.attributes)
                "target_temp_low").isSome
            && (alistLookup (nonNullAttrs info.attributes)
                "target_temp_high").isSome) = false →
         alistLookup (nonNullAttrs info.attributes) "temperature" = none →
         ∀ c ∈ applyState eid info opts liveState,
           alistLookup c.data "hvac_mode" = none) := by
  have happ := applyState_eq_climateCmds eid info opts liveState s hdom
    hstate hne hus
  have hspec : applyState eid info opts liveState
      = climateCommandsSpec eid s (nonNullAttrs info.attributes) := by
    rw [happ, climateCmds_eq_spec eid s _ hne]
  refine ⟨hspec, ?_⟩
  intro hcond htemp c hc
  rw [hspec] at hc
  unfold climateCommandsSpec at hc
  rw [hcond] at hc
  simp only [htemp, Option.isSome_none, Bool.false_eq_true, if_false,
    List.nil_append] at hc
  rcases List.mem_filterMap.mp hc with ⟨k, hk, hmap⟩
  rcases Option.map_eq_some'.mp hmap with ⟨v, hv, hcv⟩
  rw [← hcv]
  fin_cases hk <;> simp [alistLookup]

/-- Witness for the amended C1 at a concrete single-setpoint snapshot. -/
theorem applyState_climate_amended_witness :
    applyState "climate.z"
        ⟨some "cool", [("temperature", Value.num 21),
                       ("fan_mode", Value.str "low")]⟩ {} (some "heat")
        = climateCommandsSpec "climate.z" "cool"
            (nonNullAttrs [("temperature", Value.num 21),
                           ("fan_mode", Value.str "low")])
      ∧ ((("cool" == "heat_cool")
            && (alistLookup (nonNullAttrs
                [("temperature", Value.num 21),
                 ("fan_mode", Value.str "low")]) "target_temp_low").isSome
            && (alistLookup (nonNullAttrs
                [("temperature", Value.num 21),
                 ("fan_mode", Value.str "low")]) "target_temp_high").isSome)
              = false →
         alistLookup (nonNullAttrs
           [("temperature", Value.num 21),
            ("fan_mode", Value.str "low")]) "temperature" = none →
         ∀ c ∈ applyState "climate.z"
             ⟨some "cool", [("temperature", Value.num 21),
                            ("fan_mode", Value.str "low")]⟩ {} (some "heat"),
           alistLookup c.data "hvac_mode" = none) :=
  applyState_climate_amended "climate.z"
    ⟨some "cool", [("temperature", Value.num 21),
                   ("fan_mode", Value.str "low")]⟩ {} (some "heat") "cool"
    (by decide) rfl (by decide) (by decide)

/-- Counterexample to C1 as stated: a climate snapshot with the non-empty
saved status "heat" and no temperature attributes produces no command at all,
in particular no command setting the HVAC mode, although the target entity is
usable. -/
theorem applyState_climate_counterexample :
    domainOf "climate.x" = "climate"
      ∧ ("heat" : String) ≠ ""
      ∧ targetUsable (some "cool") = true
      ∧ applyState "climate.x" ⟨some "heat", []⟩ {} (some "cool") = [] := by
  refine ⟨by decide, by decide, by decide, by decide⟩

/-! C2: light power-on payload. -/

theorem lightAllowedAttrs_eq_spec (attrs : AList Value) :
    lightAllowedAttrs attrs = lightAllowedSpec attrs := by
  unfold lightAllowedAttrs lightAllowedSpec attrAttrs
  by_cases hp : (alistLookup attrs "profile").isSome = true
  · simp [List.find?, hp]
  · have hp' : (alistLookup attrs "profile").isSome = false := by simpa using hp
    by_cases hw : (alistLookup attrs "white").isSome = true
    · simp [List.find?, hp', hw]
    · have hw' : (alistLookup attrs "white").isSome = false := by simpa using hw
      simp [List.find?, hp', hw']

theorem lightOnData_eq_payloadSpec (eid : String) (attrs : AList Value) :
    lightOnData eid attrs = lightPayloadSpec eid attrs := by
  simp only [lightOnData, lightSafeAttrs, lightPayloadSpec,
    lightAllowedAttrs_eq_spec, commonLightAttrs]

theorem applyState_eq_lightCmds (eid : String) (info : Snapshot)
    (opts : OptDict) (liveState : Option String) (s : String)
    (hdom : domainOf eid = "light") (hstate : info.state = some s)
    (hne : s ≠ "") (hus : targetUsable liveState = true) :
    applyState eid info opts liveState
      = lightCmds eid s (nonNullAttrs info.attributes) opts := by
  simp [applyState, hstate, hdom, hne, hus, nonRestorableDomains]

/-- Claim C2 (amended): when a power-on command is generated for a light, its
payload is the entity id, transition forced to 0, and exactly those saved
non-null attributes in the allowed set (special-attribute group or color-mode
table) or in the universal set effect/flash/white/profile, with color_temp
dropped in favour of color_temp_kelvin and brightness_pct dropped in favour
of brightness; a saved transition value is not restored. -/
theorem applyState_light_amended (eid : String) (info : Snapshot)
    (opts : OptDict) (liveState : Option String) (s : String)
    (hdom : domainOf eid = "light") (hstate : info.state = some s)
    (hne : s ≠ "") (hus : targetUsable liveState = true)
    (hon : ((s == "on") || optRLA opts) = true) :
    applyState eid info opts liveState
      = [⟨"light", "turn_on",
          lightPayloadSpec eid (nonNullAttrs info.attributes)⟩]
        ++ (if s == "off" then
              [⟨"light", "turn_off",
                [("entity_id", Value.str eid),
                 ("transition", Value.num 0)]⟩]
            else []) := by
  rw [applyState_eq_lightCmds eid info opts liveState s hdom hstate hne hus]
  unfold lightCmds
  rw [lightOnData_eq_payloadSpec]
  simp only [hon, if_true]

/-- Witness for the amended C2 at the claim's example snapshot: rgb color
mode with both brightness forms saved; brightness wins, brightness_pct is
dropped. -/
theorem applyState_light_amended_witness :
    (applyState "light.k"
        ⟨some "on", [("color_mode", Value.str "rgb"),
                     ("rgb_color", Value.list [1, 2, 3]),
                     ("brightness", Value.num 10),
                     ("brightness_pct", Value.num 50)]⟩ {} (some "off")
      = [⟨"light", "turn_on",
          lightPayloadSpec "light.k"
            (nonNullAttrs [("color_mode", Value.str "rgb"),
                           ("rgb_color", Value.list [1, 2, 3]),
                           ("brightness", Value.num 10),
                           ("brightness_pct", Value.num 50)])⟩]
        ++ (if ("on" : String) == "off" then
              [⟨"light", "turn_off",
                [("entity_id", Value.str "light.k"),
                 ("transition", Value.num 0)]⟩]
            else []))
    ∧ lightPayloadSpec "light.k"
        (nonNullAttrs [("color_mode", Value.str "rgb"),
                       ("rgb_color", Value.list [1, 2, 3]),
                       ("brightness", Value.num 10),
                       ("brightness_pct", Value.num 50)])
      = [("entity_id", Value.str "light.k"),
         ("transition", Value.num 0),
         ("rgb_color", Value.list [1, 2, 3]),
         ("brightness", Value.num 10)] :=
  ⟨applyState_light_amended "light.k"
      ⟨some "on", [("color_mode", Value.str "rgb"),
                   ("rgb_color", Value.list [1, 2, 3]),
                   ("brightness", Value.num 10),
                   ("brightness_pct", Value.num 50)]⟩ {} (some "off") "on"
      (by decide) rfl (by decide) (by decide) (by decide),
   by decide⟩

/-- Counterexample to C2 as stated: transition is not a restored universal
attribute - a saved non-null transition of 5 is replaced by the forced
transition 0 in the power-on payload. -/
theorem applyState_light_transition_counterexample :
    applyState "light.demo"
        ⟨some "on", [("color_mode", Value.str "onoff"),
                     ("transition", Value.num 5)]⟩ {} (some "off")
        = [⟨"light", "turn_on",
            [("entity_id", Value.str "light.demo"),
             ("transition", Value.num 0)]⟩]
      ∧ alistLookup
          (lightOnData "light.demo"
            (nonNullAttrs [("color_mode", Value.str "onoff"),
                           ("transition", Value.num 5)])) "transition"
          = some (Value.num 0)
      ∧ Value.num 0 ≠ Value.num 5 := by
  refine ⟨by decide, by decide, by decide⟩

/-! C8: scene rename in the options flow. -/

/-- Claim C8: with a rename actually attempted (non-empty source and
destination), the map is unchanged when the source id is absent; when the
source exists and the destination already exists and differs, the rename is
rejected with an error and the map unchanged; and exactly when the source
exists and the destination is absent or equal to the source, the entry moves
from the source key to the destination key, other scenes are untouched and
scene ids stay unique. -/
theorem renameScene_correct (stored : StoredData) (f tgt : String)
    (hnd : (stored.map Prod.fst).Nodup)
    (hf : f ≠ "") (ht : tgt ≠ "") :
    (alistLookup stored f = none →
       renameScene stored (some f) tgt = (stored, false))
    ∧ ((alistLookup stored f).isSome = true →
       (alistLookup stored tgt).isSome = true → tgt ≠ f →
       renameScene stored (some f) tgt = (stored, true))
    ∧ (∀ v, alistLookup stored f = some v →
       (alistLookup stored tgt = none ∨ tgt = f) →
       (renameScene stored (some f) tgt).2 = false
       ∧ alistLookup (renameScene stored (some f) tgt).1 tgt = some v
       ∧ (tgt ≠ f →
           alistLookup (renameScene stored (some f) tgt).1 f = none)
       ∧ (∀ k, k ≠ f → k ≠ tgt →
           alistLookup (renameScene stored (some f) tgt).1 k
             = alistLookup stored k)
       ∧ ((renameScene stored (some f) tgt).1.map Prod.fst).Nodup) := by
  refine ⟨?_, ?_, ?_⟩
  · intro h
    simp only [renameScene]
    rw [if_pos ⟨hf, ht⟩]
    simp [h]
  · intro h1 h2 h3
    simp only [renameScene]
    rw [if_pos ⟨hf, ht⟩]
    rcases Option.isSome_iff_exists.mp h1 with ⟨v, hv⟩
    simp [hv, h2, h3]
  · intro v hv hor
    have hfne : f ≠ tgt ∨ tgt = f := by
      by_cases h : tgt = f
      · exact Or.inr h
      · exact Or.inl (Ne.symm h)
    have hr : renameScene stored (some f) tgt
        = (alistInsert (alistErase stored f) tgt v, false) := by
      simp only [renameScene]
      rw [if_pos ⟨hf, ht⟩]
      rcases hor with h | h
      · simp [hv, h]
      · simp [hv, h]
    have htgt_erase : alistLookup (alistErase stored f) tgt = none := by
      rcases hor with h | h
      · have hne2 : f ≠ tgt := by
          intro he
          rw [he, h] at hv
          exact Option.noConfusion hv
        rw [alistLookup_erase_ne _ f tgt hne2]
        exact h
      · rw [h]
        exact alistLookup_erase_self stored f hnd
    refine ⟨by rw [hr], ?_, ?_, ?_, ?_⟩
    · rw [hr]
      exact alistLookup_insert_self _ _ _
    · intro hne3
      rw [hr]
      show alistLookup (alistInsert (alistErase stored f) tgt v) f = none
      rw [alistLookup_insert_ne _ _ _ _ hne3]
      exact alistLookup_erase_self stored f hnd
    · intro k hkf hkt
      rw [hr]
      show alistLookup (alistInsert (alistErase stored f) tgt v) k
        = alistLookup stored k
      rw [alistLookup_insert_ne _ _ _ _ (Ne.symm hkt),
          alistLookup_erase_ne _ f k (Ne.symm hkf)]
    · rw [hr]
      exact alistInsert_keys_nodup_of_not_mem _ _ _
        (alistErase_keys_nodup stored f hnd)
        ((alistLookup_eq_none_iff _ _).mp htgt_erase)

/-- Witness for C8 on a concrete two-scene store: renaming scene a to the
fresh id b succeeds and moves the entry. -/
theorem renameScene_correct_witness :
    (alistLookup ([("a", [("light.l", Entry.esnap ⟨some "on", []⟩)])] :
        StoredData) "a" = none →
       renameScene [("a", [("light.l", Entry.esnap ⟨some "on", []⟩)])]
         (some "a") "b"
         = ([("a", [("light.l", Entry.esnap ⟨some "on", []⟩)])], false))
    ∧ ((alistLookup ([("a", [("light.l", Entry.esnap ⟨some "on", []⟩)])] :
        StoredData) "a").isSome = true →
       (alistLookup ([("a", [("light.l", Entry.esnap ⟨some "on", []⟩)])] :
        StoredData) "b").isSome = true → ("b" : String) ≠ "a" →
       renameScene [("a", [("light.l", Entry.esnap ⟨some "on", []⟩)])]
         (some "a") "b"
         = ([("a", [("light.l", Entry.esnap ⟨some "on", []⟩)])], true))
    ∧ (∀ v, alistLookup ([("a", [("light.l", Entry.esnap ⟨some "on", []⟩)])] :
        StoredData) "a" = some v →
       (alistLookup ([("a", [("light.l", Entry.esnap ⟨some "on", []⟩)])] :
        StoredData) "b" = none ∨ ("b" : String) = "a") →
       (renameScene [("a", [("light.l", Entry.esnap ⟨some "on", []⟩)])]
          (some "a") "b").2 = false
       ∧ alistLookup (renameScene
            [("a", [("light.l", Entry.esnap ⟨some "on", []⟩)])]
            (some "a") "b").1 "b" = some v
       ∧ (("b" : String) ≠ "a" →
           alistLookup (renameScene
             [("a", [("light.l", Entry.esnap ⟨some "on", []⟩)])]
             (some "a") "b").1 "a" = none)
       ∧ (∀ k, k ≠ "a" → k ≠ "b" →
           alistLookup (renameScene
             [("a", [("light.l", Entry.esnap ⟨some "on", []⟩)])]
             (some "a") "b").1 k
             = alistLookup ([("a", [("light.l",
                 Entry.esnap ⟨some "on", []⟩)])] : StoredData) k)
       ∧ ((renameScene [("a", [("light.l", Entry.esnap ⟨some "on", []⟩)])]
            (some "a") "b").1.map Prod.fst).Nodup) :=
  renameScene_correct [("a", [("light.l", Entry.esnap ⟨some "on", []⟩)])]
    "a" "b" (by decide) (by decide) (by decide)

/-! C5: fallback to prior snapshots on unavailable captures. -/

/-- Claim C5 (amended): for every requested entity whose capture round
produced no entry or an entry with status unavailable, the prior snapshot of
the same scene is reused verbatim exactly when that prior snapshot's status
is valid (not unavailable, unknown or absent); otherwise the entity keeps
this round's captured entry - in particular an entry captured with status
unavailable remains in the stored map - and the entity is absent only when
it also produced no capture this round. -/
theorem saveScene_fallback_amended (userOptions : OptDict)
    (stored : StoredData) (hass : String → Option StateObj)
    (probe : ProbeOracle) (sceneId : String) (entities : List String)
    (options : Option OptDict) (e : String)
    (hwf : ∀ x st, (probe x).1.new_state = some st → st.entity_id = x)
    (hnd : ((((alistLookup stored sceneId).getD []) : SceneMap).map
      Prod.fst).Nodup)
    (hne : e ≠ "_options") (he : e ∈ entities)
    (hcond : fallbackNeededV
      (captureLookup (optUpdate userOptions (options.getD {})) hass probe
        entities e) = true) :
    alistLookup
        (saveSceneStates userOptions stored hass probe sceneId entities
          options) e
      = match alistLookup ((alistLookup stored sceneId).getD []) e with
        | some pv =>
          if entryValid pv = true then some pv
          else captureLookup (optUpdate userOptions (options.getD {})) hass
            probe entities e
        | none =>
          captureLookup (optUpdate userOptions (options.getD {})) hass probe
            entities e := by
  rw [saveSceneStates_lookup userOptions stored hass probe sceneId entities
    options e hwf hnd hne]
  cases hprior : alistLookup ((alistLookup stored sceneId).getD []) e with
  | none => rfl
  | some pv => simp [he, hcond]

/-- Witness for the amended C5: a switch captured unavailable while the same
scene holds a valid prior snapshot gets the prior snapshot verbatim. -/
theorem saveScene_fallback_amended_witness :
    alistLookup
        (saveSceneStates {}
          [("s", [("switch.a", Entry.esnap ⟨some "off", []⟩)])]
          (fun e => if e = "switch.a" then
            some ⟨"switch.a", "unavailable", []⟩ else none)
          (fun _ => (⟨false, true, none⟩, ⟨false, true, none⟩))
          "s" ["switch.a"] none) "switch.a"
      = match alistLookup
          ((alistLookup
            ([("s", [("switch.a", Entry.esnap ⟨some "off", []⟩)])] :
              StoredData) "s").getD []) "switch.a" with
        | some pv =>
          if entryValid pv = true then some pv
          else captureLookup (optUpdate {} ((none : Option OptDict).getD {}))
            (fun e => if e = "switch.a" then
              some ⟨"switch.a", "unavailable", []⟩ else none)
            (fun _ => (⟨false, true, none⟩, ⟨false, true, none⟩))
            ["switch.a"] "switch.a"
        | none =>
          captureLookup (optUpdate {} ((none : Option OptDict).getD {}))
            (fun e => if e = "switch.a" then
              some ⟨"switch.a", "unavailable", []⟩ else none)
            (fun _ => (⟨false, true, none⟩, ⟨false, true, none⟩))
            ["switch.a"] "switch.a" :=
  saveScene_fallback_amended {}
    [("s", [("switch.a", Entry.esnap ⟨some "off", []⟩)])]
    (fun e => if e = "switch.a" then
      some ⟨"switch.a", "unavailable", []⟩ else none)
    (fun _ => (⟨false, true, none⟩, ⟨false, true, none⟩))
    "s" ["switch.a"] none "switch.a"
    (by intro x st h; exact Option.noConfusion h)
    (by decide) (by decide) (by decide) (by decide)

/-- Counterexample to C5 as stated: an entity whose capture came back with
status unavailable and whose prior snapshot is absent still has an entry in
the newly stored map (the unavailable capture itself), where the claim says
it has none. -/
theorem saveScene_unavailable_kept_counterexample :
    alistLookup (([] : StoredData)) "s" = none
      ∧ alistLookup
          (saveSceneStates {} []
            (fun e => if e = "switch.a" then
              some ⟨"switch.a", "unavailable", []⟩ else none)
            (fun _ => (⟨false, true, none⟩, ⟨false, true, none⟩))
            "s" ["switch.a"] none) "switch.a"
          = some (Entry.esnap ⟨some "unavailable", []⟩) := by
  refine ⟨by decide, by decide⟩

/-! C6: light elicitation outcomes. -/

/-- Claim C6 (amended): for an off light elicited under aggressive capture:
when the power-on confirmation times out or mismatches, the elicitation
contributes no entry and the entity's entry is decided by the fallback rule
alone (the prior snapshot when valid, otherwise nothing); when the power-on
confirmation succeeds with a state object, an entry with status off and the
elicited attributes is recorded regardless of the power-off confirmation;
every elicited entry has status off. -/
theorem saveScene_elicit_amended (userOptions : OptDict)
    (stored : StoredData) (hass : String → Option StateObj)
    (probe : ProbeOracle) (sceneId : String) (entities : List String)
    (options : Option OptDict) (e : String) (st : StateObj)
    (hwf : ∀ x st2, (probe x).1.new_state = some st2 → st2.entity_id = x)
    (hnd : ((((alistLookup stored sceneId).getD []) : SceneMap).map
      Prod.fst).Nodup)
    (hne : e ≠ "_options") (he : e ∈ entities)
    (hdom : domainOf e = "light") (hlive : hass e = some st)
    (hoff : st.state = "off")
    (haggr : optRLA (optUpdate userOptions (options.getD {})) = true) :
    (((probe e).1.timeout = true ∨ (probe e).1.matched = false) →
      alistLookup
          (saveSceneStates userOptions stored hass probe sceneId entities
            options) e
        = match alistLookup ((alistLookup stored sceneId).getD []) e with
          | some pv => if entryValid pv = true then some pv else none
          | none => none)
    ∧ (∀ ls, (probe e).1.timeout = false → (probe e).1.matched = true →
        (probe e).1.new_state = some ls →
        alistLookup
            (saveSceneStates userOptions stored hass probe sceneId entities
              options) e
          = some (.esnap ⟨some "off", ls.attributes⟩)) := by
  have hnr : domainOf e ∉ nonRestorableDomains := by
    rw [hdom]; decide
  have hec : elicitCond (optUpdate userOptions (options.getD {})) st e
      = true := by
    simp [elicitCond, haggr, hdom, hoff]
  have htc : taskCond (optUpdate userOptions (options.getD {})) hass e
      = true := by
    rw [taskCond_of_state _ hass e st hnr hlive]
    exact hec
  have hdc : directCapture (optUpdate userOptions (options.getD {})) hass e
      = none :=
    directCapture_of_elicit _ hass e st hnr hlive hec
  constructor
  · intro hfail
    have hOr : ((probe e).1.timeout || !(probe e).1.matched) = true := by
      rcases hfail with h | h
      · simp [h]
      · simp [h]
    have hcapn : elicitCapture probe e = none :=
      elicitCapture_of_fail probe e hOr
    have hcap : captureLookup (optUpdate userOptions (options.getD {})) hass
        probe entities e = none := by
      unfold captureLookup
      simp [hcapn, hdc]
    rw [saveSceneStates_lookup userOptions stored hass probe sceneId entities
      options e hwf hnd hne]
    cases hprior : alistLookup ((alistLookup stored sceneId).getD []) e with
    | none => exact hcap
    | some pv => simp [he, hcap, fallbackNeededV]
  · intro ls htmo hmat hns
    have hok : ((probe e).1.timeout || !(probe e).1.matched) = false := by
      rw [htmo, hmat]
      rfl
    have hcape : elicitCapture probe e
        = some (.esnap ⟨some "off", ls.attributes⟩) :=
      elicitCapture_of_state probe e ls hok hns
    have hmemf : e ∈ entities.filter
        (taskCond (optUpdate userOptions (options.getD {})) hass) :=
      List.mem_filter.mpr ⟨he, htc⟩
    have hcap : captureLookup (optUpdate userOptions (options.getD {})) hass
        probe entities e = some (.esnap ⟨some "off", ls.attributes⟩) := by
      unfold captureLookup
      simp [hcape, hmemf]
    rw [saveSceneStates_lookup userOptions stored hass probe sceneId entities
      options e hwf hnd hne]
    cases hprior : alistLookup ((alistLookup stored sceneId).getD []) e with
    | none => exact hcap
    | some pv =>
      have hval : fallbackNeededV
          (captureLookup (optUpdate userOptions (options.getD {})) hass probe
            entities e) = false := by
        rw [hcap]
        simp [fallbackNeededV, entryState]
      simp only [hcap]
      have hfb : fallbackNeededV
          (some (Entry.esnap ⟨some "off", ls.attributes⟩)) = false := by
        simp [fallbackNeededV, entryState]
      simp [hfb]

/-- Witness for the amended C6: an off light whose power-on confirmation
succeeds (revealing a brightness) but whose power-off confirmation times out
still gets an entry with status off and the elicited attributes. -/
theorem saveScene_elicit_amended_witness :
    (((false : Bool) = true ∨ (true : Bool) = false) →
      alistLookup
          (saveSceneStates ⟨some true, none⟩ []
            (fun x => if x = "light.a" then
              some ⟨"light.a", "off", []⟩ else none)
            (fun x =>
              (⟨true, false, some ⟨x, "on", [("brightness", Value.num 7)]⟩⟩,
               ⟨false, true, none⟩))
            "s" ["light.a"] none) "light.a"
        = match alistLookup
            ((alistLookup ([] : StoredData) "s").getD []) "light.a" with
          | some pv => if entryValid pv = true then some pv else none
          | none => none)
    ∧ (∀ ls, (false : Bool) = false → (true : Bool) = true →
        some (⟨"light.a", "on",
          [("brightness", Value.num 7)]⟩ : StateObj) = some ls →
        alistLookup
            (saveSceneStates ⟨some true, none⟩ []
              (fun x => if x = "light.a" then
                some ⟨"light.a", "off", []⟩ else none)
              (fun x =>
                (⟨true, false,
                  some ⟨x, "on", [("brightness", Value.num 7)]⟩⟩,
                 ⟨false, true, none⟩))
              "s" ["light.a"] none) "light.a"
          = some (.esnap ⟨some "off", ls.attributes⟩)) :=
  saveScene_elicit_amended ⟨some true, none⟩ []
    (fun x => if x = "light.a" then some ⟨"light.a", "off", []⟩ else none)
    (fun x =>
      (⟨true, false, some ⟨x, "on", [("brightness", Value.num 7)]⟩⟩,
       ⟨false, true, none⟩))
    "s" ["light.a"] none "light.a" ⟨"light.a", "off", []⟩
    (by intro x st2 h; injection h with h2; rw [← h2])
    (by decide) (by decide) (by decide) (by decide) (by decide) (by decide)
    (by decide)

/-- Counterexample to C6 as stated: an elicited light whose power-on
confirmation times out does end up with a snapshot entry - the valid prior
snapshot of the same scene is reused by the fallback rule - where the claim
says no entry at all is recorded. -/
theorem saveScene_elicit_prior_counterexample :
    ((fun (_ : String) =>
      ((⟨false, true, none⟩ : ActionResult),
       (⟨false, true, none⟩ : ActionResult))) "light.a").1.timeout = true
      ∧ alistLookup
          (saveSceneStates ⟨some true, none⟩
            [("s", [("light.a",
              Entry.esnap ⟨some "off", [("brightness", Value.num 5)]⟩)])]
            (fun x => if x = "light.a" then
              some ⟨"light.a", "off", []⟩ else none)
            (fun _ => (⟨false, true, none⟩, ⟨false, true, none⟩))
            "s" ["light.a"] none) "light.a"
          = some (Entry.esnap
              ⟨some "off", [("brightness", Value.num 5)]⟩) := by
  refine ⟨by decide, by decide⟩

/-! C3: non-restorable domains are excluded everywhere. -/

/-- Claim C3: for entities of the domains sensor, binary_sensor,
device_tracker, camera, vacuum, scene and script: provided the scene's prior
stored map contains no entry keyed by such a domain, the map stored by
save_scene contains none either (so the no-non-restorable-entry invariant is
preserved by every save), and apply_state issues no command for any snapshot
of such an entity. -/
theorem nonRestorable_excluded (userOptions : OptDict) (stored : StoredData)
    (hass : String → Option StateObj) (probe : ProbeOracle)
    (sceneId : String) (entities : List String) (options : Option OptDict)
    (hwf : ∀ x st, (probe x).1.new_state = some st → st.entity_id = x)
    (hnd : ((((alistLookup stored sceneId).getD []) : SceneMap).map
      Prod.fst).Nodup)
    (hprior : ∀ k,
      alistLookup ((alistLookup stored sceneId).getD []) k ≠ none →
      domainOf k ∉ nonRestorableDomains) :
    (∀ k,
      alistLookup
        (saveSceneStates userOptions stored hass probe sceneId entities
          options) k ≠ none →
      domainOf k ∉ nonRestorableDomains)
    ∧ (∀ eid info opts ls, domainOf eid ∈ nonRestorableDomains →
        applyState eid info opts ls = []) := by
  constructor
  · intro k hk
    by_cases hko : k = "_options"
    · subst hko
      show domainOf "_options" ∉ nonRestorableDomains
      decide
    · rw [saveSceneStates_lookup userOptions stored hass probe sceneId
        entities options k hwf hnd hko] at hk
      cases hpk : alistLookup ((alistLookup stored sceneId).getD []) k with
      | some pv =>
        exact hprior k (by rw [hpk]; exact fun h => Option.noConfusion h)
      | none =>
        rw [hpk] at hk
        unfold captureLookup at hk
        by_cases c1 : k ∈ entities.filter
            (taskCond (optUpdate userOptions (options.getD {})) hass)
            ∧ (elicitCapture probe k).isSome = true
        · intro hmem
          have htc := (List.mem_filter.mp c1.1).2
          rw [taskCond_of_nr _ hass k hmem] at htc
          exact Bool.noConfusion htc
        · rw [if_neg c1] at hk
          by_cases c2 : k ∈ entities
              ∧ (directCapture (optUpdate userOptions (options.getD {}))
                  hass k).isSome = true
          · intro hmem
            have hds := c2.2
            rw [directCapture_of_nr _ hass k hmem] at hds
            exact Bool.noConfusion hds
          · rw [if_neg c2] at hk
            exact absurd rfl hk
  · intro eid info opts ls hdom
    unfold applyState
    cases hst : info.state with
    | none => rfl
    | some s =>
      by_cases hs : s = ""
      · simp [hs]
      · by_cases hu : targetUsable ls = true
        · simp [hs, hu, hdom]
        · have hu' : targetUsable ls = false := by simpa using hu
          simp [hs, hu']

/-- Witness for C3: a save over a sensor and a light with an empty prior
scene, and apply_state on a sensor snapshot. -/
theorem nonRestorable_excluded_witness :
    (∀ k,
      alistLookup
        (saveSceneStates {} []
          (fun x => if x = "sensor.t" then some ⟨"sensor.t", "21.5", []⟩
            else if x = "light.b" then some ⟨"light.b", "on", []⟩
            else none)
          (fun _ => (⟨false, true, none⟩, ⟨false, true, none⟩))
          "s" ["sensor.t", "light.b"] none) k ≠ none →
      domainOf k ∉ nonRestorableDomains)
    ∧ (∀ eid info opts ls, domainOf eid ∈ nonRestorableDomains →
        applyState eid info opts ls = []) :=
  nonRestorable_excluded {} []
    (fun x => if x = "sensor.t" then some ⟨"sensor.t", "21.5", []⟩
      else if x = "light.b" then some ⟨"light.b", "on", []⟩
      else none)
    (fun _ => (⟨false, true, none⟩, ⟨false, true, none⟩))
    "s" ["sensor.t", "light.b"] none
    (by intro x st h; exact Option.noConfusion h)
    (by decide)
    (by intro k h; simp [alistLookup] at h)

end ResScene
